import Mathlib

/-!
Verification of the Kenya AI-CRM backend (src/main.py, src/schemas.py).

The embedding models Python floats by exact rationals (ℚ): every numeric
value the claims exercise is decimally exact, and both the specification
formula and the code use the same rounding operation, so the comparison is
fair. Python's `round(x, 2)` rounds half to even; `x or y` falls back to
`y` exactly when `x` is falsy, which for numbers means `x == 0`.

The store adapter (`database.py`: `db`, `create_document`, `get_documents`)
is part of the repository but is not among the provided sources; those
definitions are modelled from the specification and carry a doc comment
saying so.
-/

/-- Python's `a or b` on numbers: `b` when `a` is falsy (numerically zero),
otherwise `a`.  Used by `create_proposal_draft` (main.py line 90). -/
def pyOr (a b : ℚ) : ℚ := if a = 0 then b else a

/-- Round a rational to the nearest integer, ties to even, as Python's
built-in `round` does. -/
def roundHalfEven (q : ℚ) : ℤ :=
  let f : ℤ := q.num.fdiv q.den
  let frac : ℚ := q - (f : ℚ)
  if frac < 1/2 then f
  else if 1/2 < frac then f + 1
  else if f % 2 = 0 then f else f + 1

/-- Python's `round(x, 2)`: round to two decimal places, ties to even. -/
def round2 (q : ℚ) : ℚ := ((roundHalfEven (q * 100) : ℚ)) / 100

/-- The closed set of values of `Lead.source` (schemas.py line 59). -/
def leadSourceEnum : List String := ["whatsapp", "gmail", "web", "social", "manual"]

/-- `schemas.ProposalItem` after validation (schemas.py lines 86-91):
`title` is required; `quantity` defaults to `1`; `unit_price_kes` defaults
to `0`. -/
structure ProposalItem where
  catalog_item_id : Option String := none
  title : String
  description : Option String := none
  quantity : ℚ := 1
  unit_price_kes : ℚ := 0
deriving DecidableEq

/-- A raw (pre-validation) proposal item as submitted by a caller: every
field may be absent. -/
structure RawProposalItem where
  catalog_item_id : Option String := none
  title : Option String := none
  description : Option String := none
  quantity : Option ℚ := none
  unit_price_kes : Option ℚ := none
deriving DecidableEq

/-- Pydantic validation of one `ProposalItem`: `title` is required, a
missing `quantity` becomes `1`, a missing `unit_price_kes` becomes `0`. -/
def RawProposalItem.validate (r : RawProposalItem) : Except String ProposalItem :=
  match r.title with
  | some t =>
      .ok { catalog_item_id := r.catalog_item_id
            title := t
            description := r.description
            quantity := r.quantity.getD 1
            unit_price_kes := r.unit_price_kes.getD 0 }
  | none => .error "title: field required"

/-- Pydantic validation of a list of proposal items (the `items` field of
`ProposalDraftIn`, main.py line 85). -/
def validateItems (rs : List RawProposalItem) : Except String (List ProposalItem) :=
  rs.mapM RawProposalItem.validate

/-- `schemas.Proposal` (schemas.py lines 93-102); enum-valued fields are
carried as strings whose values the server chooses. -/
structure Proposal where
  tenant_id : String
  lead_id : String
  items : List ProposalItem
  subtotal_kes : ℚ := 0
  tax_kes : ℚ := 0
  total_kes : ℚ := 0
  status : String := "draft"
  ai_status : String := "pending"
  delivery_channels : List String := []
deriving DecidableEq

/-- A raw POST /leads payload.  `tenant_id` and `source` are the required
fields of `LeadIn`; `status`, `meta` and `extra` model fields the caller
attempted to supply that `LeadIn` does not declare (pydantic ignores
unknown fields by default). -/
structure RawLeadPayload where
  tenant_id : Option String := none
  source : Option String := none
  name : Option String := none
  phone : Option String := none
  email : Option String := none
  company : Option String := none
  status : Option String := none
  meta : List (String × String) := []
  extra : List (String × String) := []
deriving DecidableEq

/-- `main.LeadIn` (main.py lines 64-70): note `source` is an unconstrained
string, not the `Lead` enum. -/
structure LeadIn where
  tenant_id : String
  source : String
  name : Option String := none
  phone : Option String := none
  email : Option String := none
  company : Option String := none
deriving DecidableEq

/-- Pydantic validation of a raw payload against `LeadIn`: the declared
required fields must be present; anything `LeadIn` does not declare
(`status`, `meta`, `extra`) is silently dropped, never rejected. -/
def LeadIn.validate (p : RawLeadPayload) : Except String LeadIn :=
  match p.tenant_id, p.source with
  | some t, some s =>
      .ok { tenant_id := t, source := s, name := p.name, phone := p.phone,
            email := p.email, company := p.company }
  | _, _ => .error "field required"

/-- The document `create_lead` inserts into the "lead" collection
(main.py lines 74-75): the payload dump updated with the server-forced
`status` and `meta`. -/
structure StoredLead where
  tenant_id : String
  source : String
  name : Option String := none
  phone : Option String := none
  email : Option String := none
  company : Option String := none
  status : String
  meta : List (String × String)
deriving DecidableEq

/-- Modelled from the spec: `database.py` is part of this repository but is
not among the provided sources.  The spec (section 4.2) says the adapter
holds a single backing connection; `writeFailure` / `readFailure` being set
models a write-time / read-time store failure with the given underlying
message, and `listNamesResult` models the outcome of listing collection
names. -/
structure DBConn where
  writeFailure : Option String := none
  readFailure : Option String := none
  listNamesResult : Except String (List String) := .ok []

/-- Modelled from the spec: the message of the `StoreUnavailable` error the
adapter raises when the backing connection was never established. -/
def storeUnavailableMsg : String := "Database not available"

/-- Modelled from the spec: the adapter "propagates underlying message,
truncated for safety"; the spec fixes no length, taken here as 200
characters. -/
def truncateMsg (m : String) : String := ⟨m.data.take 200⟩

/-- Modelled from the spec: `database.create_document(collection, doc)`
persists the record and returns a generated identifier; it fails with
`StoreUnavailable` when no connection exists and with `StoreWriteError`
(truncated underlying message) on a write-time failure. -/
def create_document {α : Type} (db : Option DBConn) (coll : List α) (doc : α) :
    Except String (String × List α) :=
  match db with
  | none => .error storeUnavailableMsg
  | some c =>
    match c.writeFailure with
    | some m => .error (truncateMsg m)
    | none => .ok (toString coll.length, coll ++ [doc])

/-- A stored document as the listing endpoints see it: a `tenant_id` plus
opaque remaining fields. -/
structure TenantDoc where
  tenant_id : String
  fields : List (String × String) := []
deriving DecidableEq

/-- Modelled from the spec: `database.get_documents(collection, filter,
limit)` queries "filtered strictly by tenant_id", the limit bounding the
result count; it fails with `StoreUnavailable` / `StoreReadError`
analogously to `create_document`. -/
def get_documents (db : Option DBConn) (coll : List TenantDoc)
    (tenant_id : String) (limit : Nat) : Except String (List TenantDoc) :=
  match db with
  | none => .error storeUnavailableMsg
  | some c =>
    match c.readFailure with
    | some m => .error (truncateMsg m)
    | none => .ok ((coll.filter (fun d => d.tenant_id = tenant_id)).take limit)

/-- FastAPI's `HTTPException(status_code, detail)`. -/
structure HTTPException where
  status_code : Nat
  detail : String
deriving DecidableEq

/-- Response body of POST /leads on success (main.py line 78). -/
structure CreateResponse where
  id : String
  status : String
deriving DecidableEq

/-- The `totals` object returned by POST /proposals/draft. -/
structure Totals where
  subtotal : ℚ
  tax : ℚ
  total : ℚ
deriving DecidableEq

/-- Response body of POST /proposals/draft on success (main.py line 106). -/
structure DraftResponse where
  id : String
  status : String
  totals : Totals
deriving DecidableEq

/-- `main.ProposalDraftIn` (main.py lines 82-85), items already validated. -/
structure ProposalDraftIn where
  tenant_id : String
  lead_id : String
  items : List ProposalItem
deriving DecidableEq

/-- `main.create_lead` (main.py lines 72-80): dump the payload, force
`status` and `meta`, insert into the "lead" collection; any store failure
becomes `HTTPException(500, str(e))`. -/
def create_lead (db : Option DBConn) (coll : List StoredLead) (payload : LeadIn) :
    Except HTTPException (CreateResponse × List StoredLead) :=
  let lead_dict : StoredLead :=
    { tenant_id := payload.tenant_id, source := payload.source,
      name := payload.name, phone := payload.phone, email := payload.email,
      company := payload.company, status := "new", meta := [("ingest", "api")] }
  match create_document db coll lead_dict with
  | .error e => .error { status_code := 500, detail := e }
  | .ok (id, coll2) => .ok ({ id := id, status := "created" }, coll2)

/-- `main.create_proposal_draft` (main.py lines 87-108): compute the totals
server-side, build the draft `Proposal`, insert it; any store failure
becomes `HTTPException(500, str(e))`. -/
def create_proposal_draft (db : Option DBConn) (coll : List Proposal)
    (payload : ProposalDraftIn) :
    Except HTTPException (DraftResponse × List Proposal) :=
  let subtotal : ℚ :=
    (payload.items.map (fun it => pyOr it.quantity 1 * pyOr it.unit_price_kes 0)).sum
  let tax := round2 (subtotal * ((16 : ℚ) / 100))
  let total := round2 (subtotal + tax)
  let proposal : Proposal :=
    { tenant_id := payload.tenant_id, lead_id := payload.lead_id,
      items := payload.items, subtotal_kes := subtotal, tax_kes := tax,
      total_kes := total, status := "draft", ai_status := "pending",
      delivery_channels := ["pdf"] }
  match create_document db coll proposal with
  | .error e => .error { status_code := 500, detail := e }
  | .ok (id, coll2) =>
      .ok ({ id := id, status := "draft_created",
             totals := { subtotal := subtotal, tax := tax, total := total } }, coll2)

/-- `main.list_leads` (main.py lines 111-117). -/
def list_leads (db : Option DBConn) (coll : List TenantDoc) (tenant_id : String) :
    Except HTTPException (List TenantDoc) :=
  match get_documents db coll tenant_id 50 with
  | .ok docs => .ok docs
  | .error e => .error { status_code := 500, detail := e }

/-- `main.list_proposals` (main.py lines 119-125). -/
def list_proposals (db : Option DBConn) (coll : List TenantDoc) (tenant_id : String) :
    Except HTTPException (List TenantDoc) :=
  match get_documents db coll tenant_id 50 with
  | .ok docs => .ok docs
  | .error e => .error { status_code := 500, detail := e }

/-- Response of GET /test (main.py lines 24-48). -/
structure TestResponse where
  backend : String
  database : String
  database_url : String
  database_name : String
  connection_status : String
  collections : List String
deriving DecidableEq

/-- `main.test_database` (main.py lines 24-48): the booleans say whether
the DATABASE_URL / DATABASE_NAME environment variables are set. -/
def test_database (urlSet nameSet : Bool) (db : Option DBConn) : TestResponse :=
  let base : TestResponse :=
    { backend := "✅ Running", database := "❌ Not Available",
      database_url := if urlSet then "✅ Set" else "❌ Not Set",
      database_name := if nameSet then "✅ Set" else "❌ Not Set",
      connection_status := "Not Connected", collections := [] }
  match db with
  | none => { base with database := "❌ Not Initialized" }
  | some c =>
    match c.listNamesResult with
    | .error e =>
        { base with database := "⚠️ Connected but error: " ++ e.take 80 }
    | .ok names =>
        { base with database := "✅ Connected & Working",
                    connection_status := "Connected",
                    collections := names.take 20 }

/-- The keys of `schemas.SCHEMA_MODELS` (schemas.py lines 130-142). -/
def schemaModelNames : List String :=
  ["tenant", "billingrecord", "modulesubscription", "useraccount", "lead",
   "message", "catalogitem", "proposal", "payment", "aijob", "eventlog"]

/-- One entry of the GET /schema response: either a generated descriptor or
the per-entry error marker `error: schema generation failed`. -/
inductive SchemaEntry where
  | ok (descriptor : String)
  | errorMarker
deriving DecidableEq

/-- `main.get_schema` (main.py lines 51-61), parameterized by the outcome
of `model.model_json_schema()` for each registered kind: a failure for one
kind is replaced by the error marker for that entry only. -/
def get_schema (describe : String → Except String String) :
    List (String × SchemaEntry) :=
  schemaModelNames.map (fun name =>
    (name, match describe name with
           | .ok d => SchemaEntry.ok d
           | .error _ => SchemaEntry.errorMarker))

/-- The subtotal formula exactly as the specification states it: the sum
over items of `quantity_i` times `unit_price_i` (defaults for missing
fields are applied by validation). -/
def specSubtotal (items : List ProposalItem) : ℚ :=
  (items.map (fun it => it.quantity * it.unit_price_kes)).sum

/-- The amended subtotal formula: a quantity of `0` is also treated as `1`,
because the code uses Python truthiness (`it.quantity or 1`). -/
def specSubtotalAmended (items : List ProposalItem) : ℚ :=
  (items.map (fun it =>
    (if it.quantity = 0 then 1 else it.quantity) * it.unit_price_kes)).sum

/-- A store connection with no simulated failure. -/
def connOk : DBConn := {}

/-- A store connection whose reads and writes both fail with message
"boom". -/
def connBad : DBConn := { writeFailure := some "boom", readFailure := some "boom" }

/-- A raw proposal item whose quantity is present and equal to zero. -/
def zeroQtyRaw : RawProposalItem :=
  { title := some "line", quantity := some 0, unit_price_kes := some 100 }

/-- The validated form of `zeroQtyRaw`. -/
def zeroQtyItem : ProposalItem :=
  { title := "line", quantity := 0, unit_price_kes := 100 }

/-- A raw proposal item with a negative unit price. -/
def negItemRaw : RawProposalItem :=
  { title := some "consulting", quantity := some 2, unit_price_kes := some (-100) }

/-- The validated form of `negItemRaw`. -/
def negItem : ProposalItem :=
  { title := "consulting", quantity := 2, unit_price_kes := -100 }

/-- A lead payload whose `source` lies outside the `Lead` enum. -/
def badSourcePayload : RawLeadPayload :=
  { tenant_id := some "t1", source := some "telegram" }

/-- The `LeadIn` that `badSourcePayload` validates to. -/
def badSourceLeadIn : LeadIn := { tenant_id := "t1", source := "telegram" }

/-- A lead payload that attempts to smuggle in `status`, `meta` and an
unknown field. -/
def sneakyPayload : RawLeadPayload :=
  { tenant_id := some "t1", source := some "web", status := some "won",
    meta := [("ingest", "hacker")], extra := [("injected", "1")] }

/-- A concrete valid `LeadIn`. -/
def liW : LeadIn := { tenant_id := "t1", source := "web" }

/-- A concrete valid `ProposalDraftIn` with no items. -/
def dpW : ProposalDraftIn := { tenant_id := "t1", lead_id := "l1", items := [] }

/-- A concrete raw one-item list: quantity 2, unit price 1000. -/
def rawItemsW : List RawProposalItem :=
  [{ title := some "a", quantity := some 2, unit_price_kes := some 1000 }]

/-- The validated form of `rawItemsW`. -/
def itemsW : List ProposalItem :=
  [{ title := "a", quantity := 2, unit_price_kes := 1000 }]

/-- The draft response produced for `itemsW` on an empty collection. -/
def draftRespW : DraftResponse :=
  { id := "0", status := "draft_created",
    totals := { subtotal := 2000, tax := 320, total := 2320 } }

/-- The proposal stored for `itemsW`. -/
def storedPropW : Proposal :=
  { tenant_id := "t", lead_id := "l", items := itemsW, subtotal_kes := 2000,
    tax_kes := 320, total_kes := 2320, status := "draft", ai_status := "pending",
    delivery_channels := ["pdf"] }

/-- A descriptor generator that fails for the "lead" kind only. -/
def describe0 : String → Except String String :=
  fun k => if k = "lead" then .error "bad schema" else .ok "descriptor"

/-- Python `or` with a numeric fallback of `0` is the identity. -/
theorem pyOr_zero (p : ℚ) : pyOr p 0 = p := by
  unfold pyOr
  split <;> simp_all

/-- Any successful `get_documents` result is tenant-scoped and bounded by
the limit. -/
theorem get_documents_sound (db : Option DBConn) (coll : List TenantDoc)
    (t : String) (lim : Nat) (docs : List TenantDoc)
    (h : get_documents db coll t lim = .ok docs) :
    (∀ d ∈ docs, d.tenant_id = t) ∧ docs.length ≤ lim := by
  cases db with
  | none => simp [get_documents] at h
  | some c =>
    cases hr : c.readFailure with
    | some m => simp [get_documents, hr] at h
    | none =>
      simp only [get_documents, hr, Except.ok.injEq] at h
      subst h
      refine ⟨fun d hd => ?_, ?_⟩
      · have hf := List.mem_of_mem_take hd
        have := List.of_mem_filter hf
        simpa using this
      · rw [List.length_take]
        exact min_le_left _ _

/-- `roundHalfEven` is the identity on integers. -/
theorem roundHalfEven_intCast (z : ℤ) : roundHalfEven ((z : ℚ)) = z := by
  simp only [roundHalfEven, Rat.num_intCast, Rat.den_intCast, Nat.cast_one,
    Int.fdiv_one]
  norm_num

/-- `round2` is the identity on integers. -/
theorem round2_intCast (z : ℤ) : round2 ((z : ℚ)) = (z : ℚ) := by
  have h : ((z : ℚ) * 100) = (((z * 100 : ℤ)) : ℚ) := by push_cast; ring
  rw [round2, h, roundHalfEven_intCast]
  push_cast
  rw [mul_div_assoc]
  norm_num

/-- `round2` of anything equal to an integer is that integer. -/
theorem round2_eq_int (q : ℚ) (z : ℤ) (h : q = (z : ℚ)) : round2 q = (z : ℚ) := by
  rw [h, round2_intCast]

/-- Evaluation lemma for `create_proposal_draft` on a working connection,
with the three computed numbers supplied as hypotheses. -/
theorem create_proposal_draft_ok (coll : List Proposal) (p : ProposalDraftIn)
    (S T U : ℚ)
    (hS : (p.items.map (fun it => pyOr it.quantity 1 * pyOr it.unit_price_kes 0)).sum = S)
    (hT : round2 (S * ((16 : ℚ) / 100)) = T)
    (hU : round2 (S + T) = U) :
    create_proposal_draft (some connOk) coll p =
      .ok ({ id := toString coll.length, status := "draft_created",
             totals := { subtotal := S, tax := T, total := U } },
           coll ++ [{ tenant_id := p.tenant_id, lead_id := p.lead_id,
                      items := p.items, subtotal_kes := S, tax_kes := T,
                      total_kes := U, status := "draft", ai_status := "pending",
                      delivery_channels := ["pdf"] }]) := by
  subst hS
  subst hT
  subst hU
  rfl

/-- C5: for items with quantity 2 at unit price 1000 and quantity 1 at
unit price 500, `create_proposal_draft` returns subtotal 2500, tax 400 and
total 2900. -/
theorem proposal_totals_example :
    (create_proposal_draft (some connOk) []
        { tenant_id := "t1", lead_id := "l1",
          items := [{ title := "item1", quantity := 2, unit_price_kes := 1000 },
                    { title := "item2", quantity := 1, unit_price_kes := 500 }] }).toOption.map
      (fun x => x.1.totals)
      = some { subtotal := 2500, tax := 400, total := 2900 } := by
  rw [create_proposal_draft_ok _ _ 2500 400 2900
    (by norm_num [pyOr, List.sum_cons, List.sum_nil])
    ((round2_eq_int _ 400 (by norm_num)).trans (by norm_num))
    ((round2_eq_int _ 2900 (by norm_num)).trans (by norm_num))]
  rfl

/-- C10: `ProposalItem` validation imposes no lower bound on `quantity` or
`unit_price_kes`: an item with a negative unit price validates, and
`create_proposal_draft` succeeds, returning and storing a negative
subtotal and total. -/
theorem proposal_totals_can_be_negative :
    (validateItems [negItemRaw]).toOption = some [negItem] ∧
    (create_proposal_draft (some connOk) []
        { tenant_id := "t1", lead_id := "l1", items := [negItem] }).toOption.map
      (fun x => (x.1.totals.subtotal, x.1.totals.total,
                 x.2.map (fun pr => (pr.subtotal_kes, pr.total_kes))))
      = some (-200, -232, [(-200, -232)]) ∧
    ((-200 : ℚ) < 0 ∧ (-232 : ℚ) < 0) := by
  refine ⟨rfl, ?_, by norm_num, by norm_num⟩
  rw [create_proposal_draft_ok _ _ (-200) (-32) (-232)
    (by norm_num [pyOr, negItem, List.sum_cons, List.sum_nil])
    ((round2_eq_int _ (-32) (by norm_num)).trans (by norm_num))
    ((round2_eq_int _ (-232) (by norm_num)).trans (by norm_num))]
  rfl

/-- C9: for every state of the backing store, the `collections` field of
the GET /test response holds at most 20 names. -/
theorem test_collections_capped (u n : Bool) (db : Option DBConn) :
    (test_database u n db).collections.length ≤ 20 := by
  cases db with
  | none => simp [test_database]
  | some c =>
    cases h : c.listNamesResult with
    | error e => simp [test_database, h]
    | ok names =>
      simp only [test_database, h]
      rw [List.length_take]
      exact min_le_left _ _

/-- C6: when the store connection is absent (`db = none`), GET /test still
returns a response whose `database` field reports non-availability, while
POST /leads and POST /proposals/draft fail with HTTP 500 carrying the
store-unavailable message. -/
theorem degraded_mode_behavior (u n : Bool) (coll : List StoredLead)
    (pcoll : List Proposal) (li : LeadIn) (dp : ProposalDraftIn) :
    (test_database u n none).database = "❌ Not Initialized" ∧
    create_lead none coll li =
      .error { status_code := 500, detail := storeUnavailableMsg } ∧
    create_proposal_draft none pcoll dp =
      .error { status_code := 500, detail := storeUnavailableMsg } :=
  ⟨rfl, rfl, rfl⟩

/-- C4: GET /leads and GET /proposals never return a record whose
`tenant_id` differs from the requested one, and never return more than 50
records. -/
theorem listings_tenant_scoped_and_capped (db : Option DBConn)
    (leadColl propColl : List TenantDoc) (t : String) :
    (∀ docs, list_leads db leadColl t = .ok docs →
        (∀ d ∈ docs, d.tenant_id = t) ∧ docs.length ≤ 50) ∧
    (∀ docs, list_proposals db propColl t = .ok docs →
        (∀ d ∈ docs, d.tenant_id = t) ∧ docs.length ≤ 50) := by
  constructor
  · intro docs h
    cases hg : get_documents db leadColl t 50 with
    | error e => simp [list_leads, hg] at h
    | ok ds =>
      simp only [list_leads, hg, Except.ok.injEq] at h
      subst h
      exact get_documents_sound db leadColl t 50 ds hg
  · intro docs h
    cases hg : get_documents db propColl t 50 with
    | error e => simp [list_proposals, hg] at h
    | ok ds =>
      simp only [list_proposals, hg, Except.ok.injEq] at h
      subst h
      exact get_documents_sound db propColl t 50 ds hg

/-- Witness for `listings_tenant_scoped_and_capped` at a concrete
two-tenant collection. -/
theorem listings_tenant_scoped_and_capped_witness :
    (∀ d ∈ [({ tenant_id := "t1" } : TenantDoc)], d.tenant_id = "t1") ∧
    ([({ tenant_id := "t1" } : TenantDoc)]).length ≤ 50 :=
  (listings_tenant_scoped_and_capped (some connOk)
      [{ tenant_id := "t1" }, { tenant_id := "t2" }] [] "t1").1
    [{ tenant_id := "t1" }] rfl

/-- C2: any payload carrying the required `LeadIn` fields passes
validation no matter what `status`, `meta` or unknown fields the caller
attempted to supply, and the record `create_lead` stores always has
`status = "new"` and `meta.ingest = "api"`. -/
theorem create_lead_forces_status_meta (p : RawLeadPayload)
    (hp : p.tenant_id.isSome ∧ p.source.isSome)
    (db : Option DBConn) (coll : List StoredLead) :
    ∃ li, LeadIn.validate p = .ok li ∧
      ∀ resp coll2, create_lead db coll li = .ok (resp, coll2) →
        ∃ doc, coll2 = coll ++ [doc] ∧ doc.status = "new" ∧
          doc.meta.lookup "ingest" = some "api" := by
  obtain ⟨ht, hs⟩ := hp
  obtain ⟨t, ht⟩ := Option.isSome_iff_exists.mp ht
  obtain ⟨s, hs⟩ := Option.isSome_iff_exists.mp hs
  refine ⟨{ tenant_id := t, source := s, name := p.name, phone := p.phone,
            email := p.email, company := p.company }, ?_, ?_⟩
  · simp [LeadIn.validate, ht, hs]
  · intro resp coll2 h
    cases db with
    | none => simp [create_lead, create_document] at h
    | some c =>
      cases hw : c.writeFailure with
      | some m => simp [create_lead, create_document, hw] at h
      | none =>
        simp only [create_lead, create_document, hw, Except.ok.injEq,
          Prod.mk.injEq] at h
        obtain ⟨-, hcoll⟩ := h
        exact ⟨_, hcoll.symm, rfl, rfl⟩

/-- Witness for `create_lead_forces_status_meta` at a payload that
attempts to smuggle in `status`, `meta` and an unknown field. -/
theorem create_lead_forces_status_meta_witness :
    (sneakyPayload.tenant_id.isSome ∧ sneakyPayload.source.isSome) ∧
    ∃ li, LeadIn.validate sneakyPayload = .ok li ∧
      ∀ resp coll2, create_lead (some connOk) [] li = .ok (resp, coll2) →
        ∃ doc, coll2 = [] ++ [doc] ∧ doc.status = "new" ∧
          doc.meta.lookup "ingest" = some "api" :=
  ⟨⟨rfl, rfl⟩,
   create_lead_forces_status_meta sneakyPayload ⟨rfl, rfl⟩ (some connOk) []⟩

/-- C3 counterexample: POST /leads does NOT reject a `source` outside the
`Lead` enum: "telegram" is not in the enum, yet the payload validates
against `LeadIn` and the record is inserted into the lead collection. -/
theorem lead_source_enum_not_enforced_cex :
    LeadIn.validate badSourcePayload = .ok badSourceLeadIn ∧
    "telegram" ∉ leadSourceEnum ∧
    (create_lead (some connOk) [] badSourceLeadIn).toOption.map
        (fun x => x.2.map (fun d => d.source)) = some ["telegram"] := by
  refine ⟨rfl, by decide, rfl⟩

/-- C3 (amended): `LeadIn.source` is an unconstrained string, so POST
/leads accepts any `source` value whatsoever — validation succeeds exactly
when `tenant_id` and `source` are present, and with a working store the
record is inserted carrying that source verbatim; the `Lead` schema enum
is not enforced by the endpoint. -/
theorem lead_source_any_string_accepted (p : RawLeadPayload) :
    ((∃ li, LeadIn.validate p = .ok li) ↔
      (p.tenant_id.isSome ∧ p.source.isSome)) ∧
    ∀ li coll, LeadIn.validate p = .ok li →
      li.source = p.source.getD "" ∧
      ∃ resp coll2, create_lead (some connOk) coll li = .ok (resp, coll2) ∧
        coll2.length = coll.length + 1 ∧
        ∃ doc, coll2 = coll ++ [doc] ∧ doc.source = li.source := by
  constructor
  · cases ht : p.tenant_id <;> cases hs : p.source <;>
      simp [LeadIn.validate, ht, hs]
  · intro li coll h
    cases ht : p.tenant_id with
    | none => simp [LeadIn.validate, ht] at h
    | some t =>
      cases hs : p.source with
      | none => simp [LeadIn.validate, ht, hs] at h
      | some s =>
        simp only [LeadIn.validate, ht, hs, Except.ok.injEq] at h
        subst h
        exact ⟨by simp [hs], _, _, rfl, by simp, _, rfl, rfl⟩

/-- Witness for `lead_source_any_string_accepted` at the out-of-enum
source "telegram". -/
theorem lead_source_any_string_accepted_witness :
    LeadIn.validate badSourcePayload = .ok badSourceLeadIn ∧
    badSourceLeadIn.source = badSourcePayload.source.getD "" ∧
    ∃ resp coll2,
      create_lead (some connOk) [] badSourceLeadIn = .ok (resp, coll2) ∧
      coll2.length = ([] : List StoredLead).length + 1 ∧
      ∃ doc, coll2 = [] ++ [doc] ∧ doc.source = badSourceLeadIn.source :=
  ⟨rfl, (lead_source_any_string_accepted badSourcePayload).2 badSourceLeadIn [] rfl⟩

/-- C1 counterexample: at a valid item whose quantity is present and equal
to 0 (unit price 100), the spec formula gives subtotal 0, but
`create_proposal_draft` computes subtotal 100 — Python truthiness maps a
zero quantity to 1. -/
theorem subtotal_zero_quantity_deviates :
    (validateItems [zeroQtyRaw]).toOption = some [zeroQtyItem] ∧
    (create_proposal_draft (some connOk) []
        { tenant_id := "t1", lead_id := "l1", items := [zeroQtyItem] }).toOption.map
      (fun x => x.1.totals.subtotal) = some 100 ∧
    specSubtotal [zeroQtyItem] = 0 ∧ ((100 : ℚ) ≠ 0) := by
  refine ⟨rfl, ?_, by norm_num [specSubtotal, zeroQtyItem], by norm_num⟩
  have h : (([zeroQtyItem].map
      (fun it => pyOr it.quantity 1 * pyOr it.unit_price_kes 0)).sum : ℚ) = 100 := by
    norm_num [pyOr, zeroQtyItem, List.sum_cons, List.sum_nil]
  rw [create_proposal_draft_ok _ _ 100 16 116 h
    ((round2_eq_int _ 16 (by norm_num)).trans (by norm_num))
    ((round2_eq_int _ 116 (by norm_num)).trans (by norm_num))]
  rfl

/-- C1 (amended): for every valid item list, `create_proposal_draft`
computes `subtotal` as the sum over items of `quantity_i * unit_price_i`,
except that a quantity equal to 0 (missing quantities default to 1 at
validation, so only an explicit 0) is treated as 1; `tax` is
`round2 (subtotal * 0.16)` and `total` is `round2 (subtotal + tax)`, and
the stored proposal carries the same three numbers. -/
theorem proposal_totals_amended (db : Option DBConn) (pcoll : List Proposal)
    (raw : List RawProposalItem) (items : List ProposalItem)
    (hval : validateItems raw = .ok items)
    (tid lid : String) (resp : DraftResponse) (coll2 : List Proposal)
    (hok : create_proposal_draft db pcoll
        { tenant_id := tid, lead_id := lid, items := items } = .ok (resp, coll2)) :
    resp.totals.subtotal = specSubtotalAmended items ∧
    resp.totals.tax = round2 (specSubtotalAmended items * ((16 : ℚ) / 100)) ∧
    resp.totals.total = round2 (specSubtotalAmended items + resp.totals.tax) ∧
    ∃ pr, coll2 = pcoll ++ [pr] ∧ pr.subtotal_kes = resp.totals.subtotal ∧
      pr.tax_kes = resp.totals.tax ∧ pr.total_kes = resp.totals.total := by
  have hfun : (fun (it : ProposalItem) => pyOr it.quantity 1 * pyOr it.unit_price_kes 0)
      = fun it => (if it.quantity = 0 then 1 else it.quantity) * it.unit_price_kes := by
    funext it
    rw [pyOr_zero]
    rfl
  have hsub : (items.map
      (fun it => pyOr it.quantity 1 * pyOr it.unit_price_kes 0)).sum
      = specSubtotalAmended items := by
    unfold specSubtotalAmended
    rw [hfun]
  cases db with
  | none => simp [create_proposal_draft, create_document] at hok
  | some c =>
    cases hw : c.writeFailure with
    | some m => simp [create_proposal_draft, create_document, hw] at hok
    | none =>
      simp only [create_proposal_draft, create_document, hw, Except.ok.injEq,
        Prod.mk.injEq] at hok
      obtain ⟨hresp, hcoll⟩ := hok
      subst hresp
      subst hcoll
      refine ⟨hsub, ?_, ?_, _, rfl, rfl, rfl, rfl⟩
      · rw [← hsub]
      · rw [← hsub]

/-- Witness for `proposal_totals_amended` at one item with quantity 2 and
unit price 1000. -/
theorem proposal_totals_amended_witness :
    validateItems rawItemsW = .ok itemsW ∧
    draftRespW.totals.subtotal = specSubtotalAmended itemsW ∧
    draftRespW.totals.tax = round2 (specSubtotalAmended itemsW * ((16 : ℚ) / 100)) :=
  ⟨rfl,
   (proposal_totals_amended (some connOk) [] rawItemsW itemsW rfl "t" "l"
      draftRespW [storedPropW]
      (create_proposal_draft_ok [] _ 2000 320 2320
        (by norm_num [pyOr, itemsW, List.sum_cons, List.sum_nil])
        ((round2_eq_int _ 320 (by norm_num)).trans (by norm_num))
        ((round2_eq_int _ 2320 (by norm_num)).trans (by norm_num)))).1,
   (proposal_totals_amended (some connOk) [] rawItemsW itemsW rfl "t" "l"
      draftRespW [storedPropW]
      (create_proposal_draft_ok [] _ 2000 320 2320
        (by norm_num [pyOr, itemsW, List.sum_cons, List.sum_nil])
        ((round2_eq_int _ 320 (by norm_num)).trans (by norm_num))
        ((round2_eq_int _ 2320 (by norm_num)).trans (by norm_num)))).2.1⟩

/-- C7: GET /schema returns one entry per registered kind; an entry is the
kind's descriptor when generation succeeds and the per-entry error marker
when it fails, so one kind's failure never suppresses the others. -/
theorem schema_descriptor_isolation (describe : String → Except String String)
    (k : String) (hk : k ∈ schemaModelNames) :
    (get_schema describe).length = schemaModelNames.length ∧
    (get_schema describe).lookup k =
      some (match describe k with
            | .ok d => SchemaEntry.ok d
            | .error _ => SchemaEntry.errorMarker) := by
  refine ⟨by simp [get_schema], ?_⟩
  simp only [schemaModelNames, List.mem_cons, List.not_mem_nil, or_false] at hk
  rcases hk with rfl | rfl | rfl | rfl | rfl | rfl | rfl | rfl | rfl | rfl | rfl
  all_goals rfl

/-- Witness for `schema_descriptor_isolation` with a generator that fails
for "lead" only: the lead entry is the error marker while the tenant entry
carries its descriptor. -/
theorem schema_descriptor_isolation_witness :
    ("lead" ∈ schemaModelNames ∧
      (get_schema describe0).lookup "lead" = some SchemaEntry.errorMarker) ∧
    ("tenant" ∈ schemaModelNames ∧
      (get_schema describe0).lookup "tenant" = some (SchemaEntry.ok "descriptor")) := by
  constructor
  · refine ⟨by decide, ?_⟩
    exact (schema_descriptor_isolation describe0 "lead" (by decide)).2.trans rfl
  · refine ⟨by decide, ?_⟩
    exact (schema_descriptor_isolation describe0 "tenant" (by decide)).2.trans rfl

/-- C8: a store read or write failure during POST /leads, POST
/proposals/draft, GET /leads or GET /proposals surfaces as HTTP 500
carrying the truncated underlying message, which is an initial segment of
the original message of length at most 200. -/
theorem store_errors_surfaced_truncated (c : DBConn) (m : String)
    (coll : List StoredLead) (pcoll : List Proposal)
    (ldocs pdocs : List TenantDoc) (li : LeadIn) (dp : ProposalDraftIn)
    (t : String) :
    (c.writeFailure = some m →
      create_lead (some c) coll li =
        .error { status_code := 500, detail := truncateMsg m } ∧
      create_proposal_draft (some c) pcoll dp =
        .error { status_code := 500, detail := truncateMsg m }) ∧
    (c.readFailure = some m →
      list_leads (some c) ldocs t =
        .error { status_code := 500, detail := truncateMsg m } ∧
      list_proposals (some c) pdocs t =
        .error { status_code := 500, detail := truncateMsg m }) ∧
    ((truncateMsg m).length ≤ 200 ∧ ∃ rest, m = truncateMsg m ++ rest) := by
  refine ⟨fun hw => ⟨?_, ?_⟩, fun hr => ⟨?_, ?_⟩, ?_, ?_⟩
  · simp [create_lead, create_document, hw]
  · simp [create_proposal_draft, create_document, hw]
  · simp [list_leads, get_documents, hr]
  · simp [list_proposals, get_documents, hr]
  · have h : (m.data.take 200).length ≤ 200 := by
      rw [List.length_take]
      exact min_le_left _ _
    exact h
  · refine ⟨⟨m.data.drop 200⟩, ?_⟩
    cases m with
    | mk d =>
      show String.mk d = String.mk (List.take 200 d ++ List.drop 200 d)
      rw [List.take_append_drop]

/-- Witness for `store_errors_surfaced_truncated` at a connection whose
reads and writes fail with message "boom". -/
theorem store_errors_surfaced_truncated_witness :
    connBad.writeFailure = some "boom" ∧ connBad.readFailure = some "boom" ∧
    create_lead (some connBad) [] liW =
      .error { status_code := 500, detail := truncateMsg "boom" } ∧
    list_leads (some connBad) [] "t1" =
      .error { status_code := 500, detail := truncateMsg "boom" } :=
  ⟨rfl, rfl,
   ((store_errors_surfaced_truncated connBad "boom" [] [] [] [] liW dpW "t1").1 rfl).1,
   ((store_errors_surfaced_truncated connBad "boom" [] [] [] [] liW dpW "t1").2.1 rfl).1⟩
